import Mathlib

/-!
Verification of the datastore path reconciler (vsphere_file module).

The definitions below are a shallow embedding of the Python source file
plugins/modules/vsphere_file.py.  Pure helpers (URL construction) become
Lean functions on character lists; the main routine becomes a function
from the module parameters and the observed HTTP / management-API
responses to the terminal outcome together with the list of remote calls
issued.  Python exceptions are modelled explicitly, including the fact
that under Python 3 subscripting an exception instance (the expression
e[0] used in several handlers) raises TypeError.
-/

namespace VsphereFile

/-! ## URL quoting (embedding of urllib quote / quote_plus / urlencode) -/

/-- UTF-8 encoding of one character, as the list of its byte values.
Python percent-encoding operates on the UTF-8 bytes of the string. -/
def utf8Bytes (c : Char) : List Nat :=
  let n := c.toNat
  if n < 128 then [n]
  else if n < 2048 then [192 + n / 64, 128 + n % 64]
  else if n < 65536 then [224 + n / 4096, 128 + n / 64 % 64, 128 + n % 64]
  else [240 + n / 262144, 128 + n / 4096 % 64, 128 + n / 64 % 64, 128 + n % 64]

/-- The bytes urllib never percent-encodes: ASCII letters, digits and
the characters - . _ ~ . -/
def alwaysSafeByte (b : Nat) : Bool :=
  (65 ≤ b && b ≤ 90) || (97 ≤ b && b ≤ 122) || (48 ≤ b && b ≤ 57) ||
    b == 45 || b == 46 || b == 95 || b == 126

/-- Upper-case hexadecimal digit, as used by urllib percent-escapes. -/
def hexUpperDigit (n : Nat) : Char :=
  Char.ofNat (if n < 10 then 48 + n else 55 + n)

/-- Encoding of one byte under quote with the default safe set, which
keeps the slash (byte 47) unescaped in addition to the always-safe set. -/
def quoteByte (b : Nat) : List Char :=
  if alwaysSafeByte b || b == 47 then [Char.ofNat b]
  else ['%', hexUpperDigit (b / 16), hexUpperDigit (b % 16)]

/-- Encoding of one byte under quote_plus: space becomes +, nothing
outside the always-safe set is kept. -/
def quotePlusByte (b : Nat) : List Char :=
  if b == 32 then ['+']
  else if alwaysSafeByte b then [Char.ofNat b]
  else ['%', hexUpperDigit (b / 16), hexUpperDigit (b % 16)]

/-- urllib quote (default safe set, which contains the slash), on
character lists. -/
def quoteL (l : List Char) : List Char :=
  l.flatMap (fun c => (utf8Bytes c).flatMap quoteByte)

/-- urllib quote_plus, on character lists. -/
def quotePlusL (l : List Char) : List Char :=
  l.flatMap (fun c => (utf8Bytes c).flatMap quotePlusByte)

/-- urllib quote on strings. -/
def quote (s : String) : String := String.mk (quoteL s.data)

/-- urllib urlencode on an association list of parameters: each key and
value goes through quote_plus, pairs are joined with = and &. -/
def urlencodeL (params : List (List Char × List Char)) : List Char :=
  List.intercalate ['&'] (params.map fun kv => quotePlusL kv.1 ++ '=' :: quotePlusL kv.2)

/-- Python str.strip with the single character / : drop every leading
and trailing slash. -/
def stripSlashes (l : List Char) : List Char :=
  ((l.dropWhile (· == '/')).reverse.dropWhile (· == '/')).reverse

/-- Python str.replace of the single character & by the three
characters %26, as applied to the datacenter name. -/
def replaceAmpL (l : List Char) : List Char :=
  l.flatMap (fun c => if c = '&' then ['%', '2', '6'] else [c])

/-- Python str.startswith for the single character / . -/
def pyStartsWithSlash (l : List Char) : Bool :=
  match l with
  | [] => false
  | c :: _ => c == '/'

/-- Embedding of the source function vmware_path, on character lists:
build /folder/ plus the quoted stripped path, pre-encode ampersands in
the datacenter name, and append the urlencoded dsName / dcPath query
(dcPath only when the datacenter name is nonempty). -/
def vmware_pathL (datastore datacenter path : List Char) : List Char :=
  let path1 := "/folder/".data ++ quoteL (stripSlashes path)
  let datacenter1 := replaceAmpL datacenter
  let path2 := if ¬ pyStartsWithSlash path1 then '/' :: path1 else path1
  let params := ("dsName".data, datastore) ::
    (if datacenter1.isEmpty then [] else [("dcPath".data, datacenter1)])
  path2 ++ '?' :: urlencodeL params

/-- Embedding of the source function vmware_path on strings. -/
def vmware_path (datastore datacenter path : String) : String :=
  String.mk (vmware_pathL datastore.data datacenter.data path.data)

/-- Embedding of the source function vmware_path2: the management-API
file specifier string. -/
def vmware_path2 (datastore path : String) : String :=
  "[" ++ datastore ++ "] " ++ String.mk (quoteL (stripSlashes path.data))

/-! ## The main routine -/

/-- The state module parameter (choices absent, directory, file, touch). -/
inductive DState where
  | absent
  | directory
  | file
  | touch
deriving DecidableEq, Repr

/-- The string form of a state value, as stored in the result dict. -/
def DState.toStr : DState → String
  | .absent => "absent"
  | .directory => "directory"
  | .file => "file"
  | .touch => "touch"

/-- The module parameters, plus the check-mode flag of the Ansible run.
Credentials, timeout and validate_certs only parameterise the HTTP
calls, whose responses are passed in explicitly below. -/
structure ModuleParams where
  host : String
  username : String
  password : String
  datacenter : String
  datastore : String
  path : String
  state : DState
  timeout : Nat
  validate_certs : Bool
  checkMode : Bool

/-- What an open_url call produced.  resp covers both a successful
response and an HTTPError (the code binds r to the error object, which
also answers getcode, headers and msg).  sockError is a socket.error
(OSError); otherError is any other exception.  The msg argument is the
Python str of the response reason or of the exception. -/
inductive HttpAttempt where
  | resp (status : Nat) (headers : List (String × String)) (msg : String)
  | sockError (msg : String)
  | otherError (msg : String)

/-- The result dict built by main: path, size, state, status, url and
the reason key added along some branches. -/
structure ResultDict where
  path : String
  size : Option Int
  state : String
  status : Option Nat
  url : String
  reason : Option String
deriving DecidableEq, Repr

/-- A terminal outcome of one invocation: exit_json with a changed
flag, fail_json with a message (and the headers kwarg when passed), or
an uncaught Python exception escaping main. -/
inductive Outcome where
  | exited (changed : Bool) (result : ResultDict)
  | failed (msg : String) (headers : Option (List (String × String))) (result : ResultDict)
  | crashed (msg : String)
deriving DecidableEq, Repr

/-- The remote calls the routine can issue. -/
inductive RemoteCall where
  | headReq
  | deleteFileCall
  | makeDirectoryCall
  | putReq
deriving DecidableEq, Repr

/-- A call other than the HEAD probe mutates the datastore. -/
def isMutating : RemoteCall → Bool
  | .headReq => false
  | _ => true

/-- Header lookup, as r.headers.get(key, None). -/
def headersGet (hs : List (String × String)) (k : String) : Option String :=
  hs.lookup k

/-- Python int() on a decimal string: surrounding whitespace allowed,
optional sign, then digits; anything else raises (modelled as none). -/
def parsePyInt (s : String) : Option Int :=
  let l := (((s.data.dropWhile (·.isWhitespace)).reverse.dropWhile (·.isWhitespace)).reverse)
  let digitsVal : List Char → Option Nat := fun ds =>
    if ds ≠ [] && ds.all (·.isDigit) then
      some (ds.foldl (fun acc c => acc * 10 + (c.toNat - 48)) 0)
    else none
  match l with
  | '+' :: rest => (digitsVal rest).map (fun n => (n : Int))
  | '-' :: rest => (digitsVal rest).map (fun n => -(n : Int))
  | _ => (digitsVal l).map (fun n => (n : Int))

/-- A single-quote character, used in the fail_json message templates. -/
def sq : String := String.mk [Char.ofNat 39]

/-- Under Python 3 the expression e[0], written in several except
handlers to build the errno argument, raises TypeError because
exception instances are not subscriptable; the handler therefore dies
before fail_json runs. -/
def py3SubscriptCrash : String :=
  "TypeError: exception object is not subscriptable"

/-- The url value stored in the result dict. -/
def resultUrl (p : ModuleParams) : String :=
  "https://" ++ p.host ++ vmware_path p.datastore p.datacenter p.path

/-- The result dict as first assembled by main. -/
def initResult (p : ModuleParams) : ResultDict :=
  { path := p.path
    size := none
    state := DState.toStr p.state
    status := none
    url := resultUrl p
    reason := none }

/-- The per-state dispatch of main, given whether the HEAD probe found
the path, the HEAD status code, the result dict so far, the outcome of
a delete or mkdir call when one is issued (none means success, some m
means an exception whose str is m), and the PUT response when one is
issued.  Returns the outcome and the mutating calls issued. -/
def stateDispatch (p : ModuleParams) (ex : Bool) (headStatus : Nat)
    (result : ResultDict) (deleteExc mkdirExc : Option String)
    (putR : HttpAttempt) : Outcome × List RemoteCall :=
  match p.state with
  | .absent =>
    if !ex then (.exited false result, [])
    else if p.checkMode then (.exited true result, [])
    else
      match deleteExc with
      | some _ => (.crashed py3SubscriptCrash, [.deleteFileCall])
      | none => (.exited true result, [.deleteFileCall])
  | .directory =>
    if ex then (.exited false result, [])
    else if p.checkMode then (.exited true result, [])
    else
      match mkdirExc with
      | some _ => (.crashed py3SubscriptCrash, [.makeDirectoryCall])
      | none => (.exited true result, [.makeDirectoryCall])
  | .file =>
    if !ex then
      (.failed ("File " ++ sq ++ p.path ++ sq ++ " is absent, cannot continue") none
        { result with state := "absent", status := some headStatus }, [])
    else
      (.exited false { result with status := some headStatus }, [])
  | .touch =>
    if ex then (.exited false { result with state := "file" }, [])
    else if p.checkMode then
      let result1 := { result with reason := some "Created", status := some 201 }
      (.exited true { result1 with size := some 0, state := "file" }, [])
    else
      match putR with
      | .sockError _ => (.crashed py3SubscriptCrash, [.putReq])
      | .otherError _ => (.crashed py3SubscriptCrash, [.putReq])
      | .resp pst pheaders pmsg =>
        let result1 := { result with reason := some pmsg, status := some pst }
        if pst ≠ 201 then
          (.failed ("Failed to touch " ++ sq ++ p.path ++ sq) (some pheaders) result1,
            [.putReq])
        else
          (.exited true { result1 with size := some 0, state := "file" }, [.putReq])

/-- Embedding of main: build the url and the initial result dict, issue
the HEAD probe (headR is what it produced), branch on the status, then
dispatch on the desired state.  The second component lists every remote
call issued, in order. -/
def main (p : ModuleParams) (headR : HttpAttempt)
    (deleteExc mkdirExc : Option String) (putR : HttpAttempt) :
    Outcome × List RemoteCall :=
  let result := initResult p
  match headR with
  | .sockError _ => (.crashed py3SubscriptCrash, [RemoteCall.headReq])
  | .otherError m => (.failed m none { result with reason := some m }, [RemoteCall.headReq])
  | .resp status headers msg =>
    if status = 200 then
      match headersGet headers "content-length" with
      | none =>
        (.crashed "TypeError: int() argument is None", [RemoteCall.headReq])
      | some s =>
        match parsePyInt s with
        | none =>
          (.crashed ("ValueError: invalid literal for int(): " ++ s), [RemoteCall.headReq])
        | some n =>
          let d := stateDispatch p true status { result with size := some n }
            deleteExc mkdirExc putR
          (d.1, RemoteCall.headReq :: d.2)
    else if status = 404 then
      let d := stateDispatch p false status result deleteExc mkdirExc putR
      (d.1, RemoteCall.headReq :: d.2)
    else
      (.failed ("Failed to query for file " ++ sq ++ p.path ++ sq) (some headers)
        { result with reason := some msg, status := some status }, [RemoteCall.headReq])

/-- The changed flag of an outcome, when it exited successfully. -/
def Outcome.changedOf : Outcome → Option Bool
  | .exited c _ => some c
  | _ => none

/-- Whether the outcome is a success (exit_json reached). -/
def Outcome.isSuccess : Outcome → Bool
  | .exited _ _ => true
  | _ => false

/-- The result dict carried by a terminal exit_json or fail_json. -/
def Outcome.resultOf : Outcome → Option ResultDict
  | .exited _ r => some r
  | .failed _ _ r => some r
  | .crashed _ => none

/-! ## Lemmas about the URL encoder -/

/-- The encoding applied to each datacenter character by the composition
of the ampersand pre-encoding with quote_plus: a literal ampersand comes
out double-encoded, every other character is percent-encoded once. -/
def dcQuirkChar (c : Char) : List Char :=
  if c = '&' then ['%', '2', '5', '2', '6']
  else (utf8Bytes c).flatMap quotePlusByte

theorem quotePlusL_append (a b : List Char) :
    quotePlusL (a ++ b) = quotePlusL a ++ quotePlusL b := by
  simp [quotePlusL]

theorem quotePlusL_replaceAmpL (l : List Char) :
    quotePlusL (replaceAmpL l) = l.flatMap dcQuirkChar := by
  induction l with
  | nil => rfl
  | cons c cs ih =>
    have hrep : replaceAmpL (c :: cs)
        = (if c = '&' then ['%', '2', '6'] else [c]) ++ replaceAmpL cs := rfl
    rw [hrep, quotePlusL_append, ih, List.flatMap_cons]
    by_cases hc : c = '&'
    · subst hc
      have h1 : quotePlusL ['%', '2', '6'] = ['%', '2', '5', '2', '6'] := by decide
      simp [h1, dcQuirkChar]
    · have h1 : quotePlusL [c] = (utf8Bytes c).flatMap quotePlusByte := by
        simp [quotePlusL]
      simp [h1, dcQuirkChar, hc]

theorem replaceAmpL_isEmpty_false (l : List Char) (h : l ≠ []) :
    (replaceAmpL l).isEmpty = false := by
  match l with
  | [] => exact absurd rfl h
  | c :: cs =>
    have hrep : replaceAmpL (c :: cs)
        = (if c = '&' then ['%', '2', '6'] else [c]) ++ replaceAmpL cs := rfl
    rw [hrep]
    by_cases hc : c = '&' <;> simp [hc]

theorem vmware_pathL_eq (ds dc p : List Char) :
    vmware_pathL ds dc p =
      "/folder/".data ++ quoteL (stripSlashes p) ++ '?' ::
        urlencodeL (("dsName".data, ds) ::
          (if (replaceAmpL dc).isEmpty then [] else [("dcPath".data, replaceAmpL dc)])) := by
  simp [vmware_pathL, pyStartsWithSlash]

theorem urlencodeL_two (k1 v1 k2 v2 : List Char) :
    urlencodeL [(k1, v1), (k2, v2)]
      = quotePlusL k1 ++ '=' :: quotePlusL v1 ++ '&' ::
          (quotePlusL k2 ++ '=' :: quotePlusL v2) := by
  simp [urlencodeL, List.intercalate]

/-! ## Claim theorems about the URL encoder -/

/-- C8: for every datacenter name containing a literal ampersand, each
ampersand appears double-encoded as %2526 in the dcPath query parameter
of the URL built by vmware_path, while the datastore parameter and the
other datacenter characters are percent-encoded once (plain
quote_plus). -/
theorem c8_ampersand_double_encoded (ds dc p : String) (hc : '&' ∈ dc.data) :
    vmware_path ds dc p =
      String.mk ("/folder/".data ++ quoteL (stripSlashes p.data) ++ '?' ::
        ("dsName".data ++ '=' :: quotePlusL ds.data ++ '&' ::
          ("dcPath".data ++ '=' :: dc.data.flatMap dcQuirkChar)))
    ∧ dcQuirkChar '&' = ['%', '2', '5', '2', '6']
    ∧ (∀ c, c ≠ '&' → dcQuirkChar c = (utf8Bytes c).flatMap quotePlusByte) := by
  refine ⟨?_, by decide, fun c hc2 => by simp [dcQuirkChar, hc2]⟩
  have hne : dc.data ≠ [] := by
    intro h0
    rw [h0] at hc
    simp at hc
  have hie : (replaceAmpL dc.data).isEmpty = false := replaceAmpL_isEmpty_false dc.data hne
  have h1 : quotePlusL ['d', 's', 'N', 'a', 'm', 'e'] = "dsName".data := by decide
  have h2 : quotePlusL ['d', 'c', 'P', 'a', 't', 'h'] = "dcPath".data := by decide
  have hmain := vmware_pathL_eq ds.data dc.data p.data
  simp only [hie, Bool.false_eq_true, if_false] at hmain
  rw [urlencodeL_two, h1, h2, quotePlusL_replaceAmpL] at hmain
  exact congrArg String.mk hmain

/-- Witness for C8 at a concrete datacenter name containing an
ampersand. -/
theorem c8_ampersand_double_encoded_witness :
    '&' ∈ "A&B".data
    ∧ (vmware_path "ds1" "A&B" "a/b" =
        String.mk ("/folder/".data ++ quoteL (stripSlashes "a/b".data) ++ '?' ::
          ("dsName".data ++ '=' :: quotePlusL "ds1".data ++ '&' ::
            ("dcPath".data ++ '=' :: "A&B".data.flatMap dcQuirkChar)))
      ∧ dcQuirkChar '&' = ['%', '2', '5', '2', '6']
      ∧ (∀ c, c ≠ '&' → dcQuirkChar c = (utf8Bytes c).flatMap quotePlusByte)) :=
  ⟨by decide, c8_ampersand_double_encoded "ds1" "A&B" "a/b" (by decide)⟩

/-- C9: the HTTP path built by vmware_path always begins with /folder/,
the portion before the query is the percent-encoding of the input path
with leading and trailing slashes stripped first, and the encoder never
percent-encodes the path separator: a slash between two fragments stays
a literal slash in the output. -/
theorem c9_folder_path_encoding (ds dc p : String) :
    (∃ rest, vmware_path ds dc p = "/folder/" ++ rest)
    ∧ (∃ q, vmware_path ds dc p =
        String.mk ("/folder/".data ++ quoteL (stripSlashes p.data) ++ '?' :: q))
    ∧ (∀ a b : List Char, quoteL (a ++ '/' :: b) = quoteL a ++ '/' :: quoteL b) := by
  have hmain := vmware_pathL_eq ds.data dc.data p.data
  refine ⟨?_, ⟨_, congrArg String.mk hmain⟩, ?_⟩
  · refine ⟨String.mk (quoteL (stripSlashes p.data) ++ '?' ::
      urlencodeL (("dsName".data, ds.data) ::
        (if (replaceAmpL dc.data).isEmpty then []
         else [("dcPath".data, replaceAmpL dc.data)]))), ?_⟩
    show String.mk (vmware_pathL ds.data dc.data p.data) = _
    rw [hmain]
    rfl
  · intro a b
    have h1 : (utf8Bytes '/').flatMap quoteByte = ['/'] := by decide
    simp [quoteL, h1]

/-! ## Claim theorems about the main routine -/

/-- Concrete module parameters used by witnesses and counterexamples. -/
def sampleParams (st : DState) (cm : Bool) : ModuleParams :=
  { host := "vc.example.com"
    username := "u"
    password := "w"
    datacenter := "DC1"
    datastore := "ds1"
    path := "a/b"
    state := st
    timeout := 10
    validate_certs := true
    checkMode := cm }

/-- C3: with state file and a HEAD probe answering 404, main fails with
the not-found message (whose text ends in the words is absent, cannot
continue), never exits successfully, and issues no call beyond the HEAD
probe. -/
theorem c3_file_absent_fails (p : ModuleParams) (hdrs : List (String × String))
    (m : String) (de me : Option String) (putR : HttpAttempt)
    (hstate : p.state = DState.file) :
    (main p (.resp 404 hdrs m) de me putR).1
        = .failed ("File " ++ sq ++ p.path ++ sq ++ " is absent, cannot continue") none
            { path := p.path
              size := none
              state := "absent"
              status := some 404
              url := resultUrl p
              reason := none }
    ∧ (∃ pre, "File " ++ sq ++ p.path ++ sq ++ " is absent, cannot continue"
        = pre ++ "is absent, cannot continue")
    ∧ (main p (.resp 404 hdrs m) de me putR).1.isSuccess = false
    ∧ (main p (.resp 404 hdrs m) de me putR).2 = [RemoteCall.headReq] := by
  refine ⟨?_, ⟨"File " ++ sq ++ p.path ++ sq ++ " ", ?_⟩, ?_, ?_⟩
  · simp [main, stateDispatch, hstate, initResult]
  · simp [String.append_assoc]
  · simp [main, stateDispatch, hstate, initResult, Outcome.isSuccess]
  · simp [main, stateDispatch, hstate, initResult]

/-- Witness for C3 at concrete inputs. -/
theorem c3_file_absent_fails_witness :
    (sampleParams DState.file false).state = DState.file
    ∧ ((main (sampleParams DState.file false) (.resp 404 [] "Not Found") none none
          (.resp 201 [] "Created")).1
        = .failed ("File " ++ sq ++ "a/b" ++ sq ++ " is absent, cannot continue") none
            { path := "a/b"
              size := none
              state := "absent"
              status := some 404
              url := resultUrl (sampleParams DState.file false)
              reason := none }
      ∧ (∃ pre, "File " ++ sq ++ "a/b" ++ sq ++ " is absent, cannot continue"
          = pre ++ "is absent, cannot continue")
      ∧ (main (sampleParams DState.file false) (.resp 404 [] "Not Found") none none
          (.resp 201 [] "Created")).1.isSuccess = false
      ∧ (main (sampleParams DState.file false) (.resp 404 [] "Not Found") none none
          (.resp 201 [] "Created")).2 = [RemoteCall.headReq]) :=
  ⟨rfl, c3_file_absent_fails (sampleParams DState.file false) [] "Not Found" none none
    (.resp 201 [] "Created") rfl⟩

/-- C7: any HEAD status other than 200 and 404 makes main fail at once,
before any state dispatch: only the HEAD call is ever issued, whatever
the desired state and whatever the later calls would have answered, and
the failure carries the status code, the response headers and the
response message. -/
theorem c7_probe_error (p : ModuleParams) (status : Nat)
    (hdrs : List (String × String)) (m : String) (de me : Option String)
    (putR : HttpAttempt) (h200 : status ≠ 200) (h404 : status ≠ 404) :
    main p (.resp status hdrs m) de me putR
      = (.failed ("Failed to query for file " ++ sq ++ p.path ++ sq) (some hdrs)
          { path := p.path
            size := none
            state := DState.toStr p.state
            status := some status
            url := resultUrl p
            reason := some m }, [RemoteCall.headReq]) := by
  simp [main, initResult, h200, h404]

/-- Witness for C7 at HEAD status 500. -/
theorem c7_probe_error_witness :
    (500 : Nat) ≠ 200 ∧ (500 : Nat) ≠ 404
    ∧ main (sampleParams DState.touch false) (.resp 500 [("x", "y")] "Server Error")
        none none (.resp 201 [] "Created")
      = (.failed ("Failed to query for file " ++ sq ++ "a/b" ++ sq) (some [("x", "y")])
          { path := "a/b"
            size := none
            state := DState.toStr DState.touch
            status := some 500
            url := resultUrl (sampleParams DState.touch false)
            reason := some "Server Error" }, [RemoteCall.headReq]) :=
  ⟨by decide, by decide,
    c7_probe_error (sampleParams DState.touch false) 500 [("x", "y")] "Server Error"
      none none (.resp 201 [] "Created") (by decide) (by decide)⟩

/-- C2: with state touch, a HEAD probe answering 404 and check mode
off, exactly one PUT is issued (whatever it answers); the run succeeds
exactly when the PUT response status is 201 (any other status, 200
included, fails, and a transport-level error never succeeds either);
and on the 201 success the outcome is changed with size 0 and state
file. -/
theorem c2_touch_put (p : ModuleParams) (hdrs phdrs : List (String × String))
    (m pm : String) (de me : Option String) (n : Nat)
    (hstate : p.state = DState.touch) (hcm : p.checkMode = false) :
    (∀ putR, (main p (.resp 404 hdrs m) de me putR).2
        = [RemoteCall.headReq, RemoteCall.putReq])
    ∧ ((main p (.resp 404 hdrs m) de me (.resp n phdrs pm)).1.isSuccess = true ↔ n = 201)
    ∧ (∀ em, (main p (.resp 404 hdrs m) de me (.sockError em)).1.isSuccess = false)
    ∧ (∀ em, (main p (.resp 404 hdrs m) de me (.otherError em)).1.isSuccess = false)
    ∧ (main p (.resp 404 hdrs m) de me (.resp 201 phdrs pm)).1
        = .exited true
            { path := p.path
              size := some 0
              state := "file"
              status := some 201
              url := resultUrl p
              reason := some pm } := by
  refine ⟨?_, ?_, ?_, ?_, ?_⟩
  · intro putR
    cases putR with
    | resp pst ph pm2 =>
      by_cases hn : pst = 201 <;> simp [main, stateDispatch, hstate, hcm, hn]
    | sockError em => simp [main, stateDispatch, hstate, hcm]
    | otherError em => simp [main, stateDispatch, hstate, hcm]
  · by_cases hn : n = 201 <;>
      simp [main, stateDispatch, hstate, hcm, hn, Outcome.isSuccess]
  · intro em
    simp [main, stateDispatch, hstate, hcm, Outcome.isSuccess]
  · intro em
    simp [main, stateDispatch, hstate, hcm, Outcome.isSuccess]
  · simp [main, stateDispatch, hstate, hcm, initResult]

/-- Witness for C2 at concrete inputs with a 201 PUT response. -/
theorem c2_touch_put_witness :
    (sampleParams DState.touch false).state = DState.touch
    ∧ (sampleParams DState.touch false).checkMode = false
    ∧ ((∀ putR, (main (sampleParams DState.touch false) (.resp 404 [] "Not Found")
            none none putR).2 = [RemoteCall.headReq, RemoteCall.putReq])
      ∧ ((main (sampleParams DState.touch false) (.resp 404 [] "Not Found") none none
            (.resp 201 [("a", "b")] "Created")).1.isSuccess = true ↔ (201 : Nat) = 201)
      ∧ (∀ em, (main (sampleParams DState.touch false) (.resp 404 [] "Not Found") none none
            (.sockError em)).1.isSuccess = false)
      ∧ (∀ em, (main (sampleParams DState.touch false) (.resp 404 [] "Not Found") none none
            (.otherError em)).1.isSuccess = false)
      ∧ (main (sampleParams DState.touch false) (.resp 404 [] "Not Found") none none
            (.resp 201 [("a", "b")] "Created")).1
          = .exited true
              { path := "a/b"
                size := some 0
                state := "file"
                status := some 201
                url := resultUrl (sampleParams DState.touch false)
                reason := some "Created" }) :=
  ⟨rfl, rfl,
    c2_touch_put (sampleParams DState.touch false) [] [("a", "b")] "Not Found" "Created"
      none none 201 rfl rfl⟩

/-- The state dispatch never touches the path and url fields of the
result dict it is given. -/
theorem stateDispatch_frame (p : ModuleParams) (ex : Bool) (hs : Nat)
    (r : ResultDict) (de me : Option String) (putR : HttpAttempt) (r2 : ResultDict)
    (h : (stateDispatch p ex hs r de me putR).1.resultOf = some r2) :
    r2.path = r.path ∧ r2.url = r.url := by
  unfold stateDispatch at h
  cases hst : p.state <;> rw [hst] at h <;>
    repeat' split at h
  all_goals simp [Outcome.resultOf] at h
  all_goals subst h
  all_goals simp

/-- C10: with state file and the probe reporting the path absent, the
failure payload has its state rewritten from file to absent and its
status set to the HEAD status code; and across every terminal outcome
of every invocation the path and url fields of the result keep their
input-derived values. -/
theorem c10_file_absent_frame (p : ModuleParams) (hdrs : List (String × String))
    (m : String) (de me : Option String) (putR : HttpAttempt)
    (hstate : p.state = DState.file) :
    ((main p (.resp 404 hdrs m) de me putR).1
        = .failed ("File " ++ sq ++ p.path ++ sq ++ " is absent, cannot continue") none
            { path := p.path
              size := none
              state := "absent"
              status := some 404
              url := resultUrl p
              reason := none })
    ∧ (∀ (p2 : ModuleParams) (hd2 : HttpAttempt) (de2 me2 : Option String)
        (pr2 : HttpAttempt) (r : ResultDict),
        (main p2 hd2 de2 me2 pr2).1.resultOf = some r →
          r.path = p2.path ∧ r.url = resultUrl p2) := by
  constructor
  · simp [main, stateDispatch, hstate, initResult]
  · intro p2 hd2 de2 me2 pr2 r h
    cases hd2 with
    | sockError em => simp [main, Outcome.resultOf] at h
    | otherError em =>
      simp [main, Outcome.resultOf] at h
      subst h
      simp [initResult]
    | resp status hs2 m2 =>
      by_cases h200 : status = 200
      · subst h200
        simp only [main] at h
        rcases hget : headersGet hs2 "content-length" with _ | s2 <;>
          rw [hget] at h <;> simp only [] at h
        · simp [Outcome.resultOf] at h
        · rcases hpi : parsePyInt s2 with _ | n2 <;> rw [hpi] at h
          · simp [Outcome.resultOf] at h
          · simp only [] at h
            have hf := stateDispatch_frame p2 true 200 _ de2 me2 pr2 r h
            simpa [initResult] using hf
      · by_cases h404 : status = 404
        · subst h404
          simp only [main, h200] at h
          simp only [if_false, reduceIte] at h
          have hf := stateDispatch_frame p2 false 404 _ de2 me2 pr2 r h
          simpa [initResult] using hf
        · simp only [main, h200, h404, if_false, reduceIte, Outcome.resultOf] at h
          simp at h
          subst h
          simp [initResult]

/-- Witness for C10 at concrete inputs. -/
theorem c10_file_absent_frame_witness :
    (sampleParams DState.file false).state = DState.file
    ∧ (((main (sampleParams DState.file false) (.resp 404 [] "Not Found") none none
          (.resp 201 [] "Created")).1
        = .failed ("File " ++ sq ++ "a/b" ++ sq ++ " is absent, cannot continue") none
            { path := "a/b"
              size := none
              state := "absent"
              status := some 404
              url := resultUrl (sampleParams DState.file false)
              reason := none })
      ∧ (∀ (p2 : ModuleParams) (hd2 : HttpAttempt) (de2 me2 : Option String)
          (pr2 : HttpAttempt) (r : ResultDict),
          (main p2 hd2 de2 me2 pr2).1.resultOf = some r →
            r.path = p2.path ∧ r.url = resultUrl p2)) :=
  ⟨rfl, c10_file_absent_frame (sampleParams DState.file false) [] "Not Found" none none
    (.resp 201 [] "Created") rfl⟩

/-- C1 as frozen is false on the code: in check mode, state absent on
an existing path reports changed true but issues no delete call, while
the claim demands changed true with a delete issued for every
invocation that reaches the state dispatch. -/
theorem c1_state_dispatch_counterexample :
    (main (sampleParams DState.absent true) (.resp 200 [("content-length", "5")] "OK")
        none none (.resp 201 [] "Created")).1.changedOf = some true
    ∧ RemoteCall.deleteFileCall ∉
        (main (sampleParams DState.absent true) (.resp 200 [("content-length", "5")] "OK")
          none none (.resp 201 [] "Created")).2 := by
  decide

/-- C1 amended: for every invocation that reaches the state dispatch,
state absent on a missing path is changed false with no call beyond the
probe; state absent on an existing path is changed true, with the
delete issued exactly outside check mode; state directory mirrors this
with mkdir; state file on an existing path is changed false; state
touch on an existing path is changed false with the reported state
normalized to file. -/
theorem c1_state_dispatch_amended (p : ModuleParams)
    (hdrs : List (String × String)) (m : String) (de me : Option String)
    (putR : HttpAttempt) (n : Int) (s : String)
    (hcl : headersGet hdrs "content-length" = some s)
    (hn : parsePyInt s = some n) :
    (p.state = DState.absent →
      (main p (.resp 404 hdrs m) de me putR).1.changedOf = some false
      ∧ (main p (.resp 404 hdrs m) de me putR).2 = [RemoteCall.headReq])
    ∧ (p.state = DState.absent →
      (main p (.resp 200 hdrs m) none me putR).1.changedOf = some true)
    ∧ (p.state = DState.absent → p.checkMode = false → ∀ de2,
      RemoteCall.deleteFileCall ∈ (main p (.resp 200 hdrs m) de2 me putR).2)
    ∧ (p.state = DState.absent → p.checkMode = true →
      (main p (.resp 200 hdrs m) de me putR).2 = [RemoteCall.headReq])
    ∧ (p.state = DState.directory →
      (main p (.resp 200 hdrs m) de me putR).1.changedOf = some false
      ∧ (main p (.resp 200 hdrs m) de me putR).2 = [RemoteCall.headReq])
    ∧ (p.state = DState.directory →
      (main p (.resp 404 hdrs m) de none putR).1.changedOf = some true)
    ∧ (p.state = DState.directory → p.checkMode = false → ∀ me2,
      RemoteCall.makeDirectoryCall ∈ (main p (.resp 404 hdrs m) de me2 putR).2)
    ∧ (p.state = DState.directory → p.checkMode = true →
      (main p (.resp 404 hdrs m) de me putR).2 = [RemoteCall.headReq])
    ∧ (p.state = DState.file →
      (main p (.resp 200 hdrs m) de me putR).1.changedOf = some false)
    ∧ (p.state = DState.touch →
      (main p (.resp 200 hdrs m) de me putR).1
        = .exited false { initResult p with size := some n, state := "file" }) := by
  refine ⟨?_, ?_, ?_, ?_, ?_, ?_, ?_, ?_, ?_, ?_⟩
  · intro hst
    constructor <;> simp [main, stateDispatch, Outcome.changedOf, hst, hcl, hn]
  · intro hst
    by_cases hcm : p.checkMode <;> simp [main, stateDispatch, Outcome.changedOf, hst, hcl, hn, hcm]
  · intro hst hcm de2
    cases de2 <;> simp [main, stateDispatch, Outcome.changedOf, hst, hcl, hn, hcm]
  · intro hst hcm
    simp [main, stateDispatch, Outcome.changedOf, hst, hcl, hn, hcm]
  · intro hst
    constructor <;> simp [main, stateDispatch, Outcome.changedOf, hst, hcl, hn]
  · intro hst
    by_cases hcm : p.checkMode <;> simp [main, stateDispatch, Outcome.changedOf, hst, hcl, hn, hcm]
  · intro hst hcm me2
    cases me2 <;> simp [main, stateDispatch, Outcome.changedOf, hst, hcl, hn, hcm]
  · intro hst hcm
    simp [main, stateDispatch, Outcome.changedOf, hst, hcl, hn, hcm]
  · intro hst
    simp [main, stateDispatch, Outcome.changedOf, hst, hcl, hn]
  · intro hst
    simp [main, stateDispatch, Outcome.changedOf, hst, hcl, hn]

/-- Witness for the amended C1 at concrete inputs outside check mode. -/
theorem c1_state_dispatch_amended_witness :
    headersGet [("content-length", "5")] "content-length" = some "5"
    ∧ parsePyInt "5" = some 5
    ∧ (((sampleParams DState.absent false).state = DState.absent →
        (main (sampleParams DState.absent false)
            (.resp 404 [("content-length", "5")] "OK") none none
            (.resp 201 [] "Created")).1.changedOf = some false
        ∧ (main (sampleParams DState.absent false)
            (.resp 404 [("content-length", "5")] "OK") none none
            (.resp 201 [] "Created")).2 = [RemoteCall.headReq])
      ∧ ((sampleParams DState.absent false).state = DState.absent →
        (main (sampleParams DState.absent false)
            (.resp 200 [("content-length", "5")] "OK") none none
            (.resp 201 [] "Created")).1.changedOf = some true)
      ∧ ((sampleParams DState.absent false).state = DState.absent →
        (sampleParams DState.absent false).checkMode = false → ∀ de2,
        RemoteCall.deleteFileCall ∈ (main (sampleParams DState.absent false)
            (.resp 200 [("content-length", "5")] "OK") de2 none
            (.resp 201 [] "Created")).2)
      ∧ ((sampleParams DState.absent false).state = DState.absent →
        (sampleParams DState.absent false).checkMode = true →
        (main (sampleParams DState.absent false)
            (.resp 200 [("content-length", "5")] "OK") none none
            (.resp 201 [] "Created")).2 = [RemoteCall.headReq])
      ∧ ((sampleParams DState.absent false).state = DState.directory →
        (main (sampleParams DState.absent false)
            (.resp 200 [("content-length", "5")] "OK") none none
            (.resp 201 [] "Created")).1.changedOf = some false
        ∧ (main (sampleParams DState.absent false)
            (.resp 200 [("content-length", "5")] "OK") none none
            (.resp 201 [] "Created")).2 = [RemoteCall.headReq])
      ∧ ((sampleParams DState.absent false).state = DState.directory →
        (main (sampleParams DState.absent false)
            (.resp 404 [("content-length", "5")] "OK") none none
            (.resp 201 [] "Created")).1.changedOf = some true)
      ∧ ((sampleParams DState.absent false).state = DState.directory →
        (sampleParams DState.absent false).checkMode = false → ∀ me2,
        RemoteCall.makeDirectoryCall ∈ (main (sampleParams DState.absent false)
            (.resp 404 [("content-length", "5")] "OK") none me2
            (.resp 201 [] "Created")).2)
      ∧ ((sampleParams DState.absent false).state = DState.directory →
        (sampleParams DState.absent false).checkMode = true →
        (main (sampleParams DState.absent false)
            (.resp 404 [("content-length", "5")] "OK") none none
            (.resp 201 [] "Created")).2 = [RemoteCall.headReq])
      ∧ ((sampleParams DState.absent false).state = DState.file →
        (main (sampleParams DState.absent false)
            (.resp 200 [("content-length", "5")] "OK") none none
            (.resp 201 [] "Created")).1.changedOf = some false)
      ∧ ((sampleParams DState.absent false).state = DState.touch →
        (main (sampleParams DState.absent false)
            (.resp 200 [("content-length", "5")] "OK") none none
            (.resp 201 [] "Created")).1
          = .exited false { initResult (sampleParams DState.absent false) with
              size := some 5, state := "file" })) :=
  ⟨by decide, by decide,
    c1_state_dispatch_amended (sampleParams DState.absent false)
      [("content-length", "5")] "OK" none none (.resp 201 [] "Created") 5 "5"
      (by decide) (by decide)⟩

/-- C4 as frozen is false on the code: in check mode with state absent
on an existing path, the run reports changed true but sets no
placeholder status or reason (both stay unset), while the claim demands
a placeholder status and reason whenever a change would be needed. -/
theorem c4_check_mode_counterexample :
    (main (sampleParams DState.absent true) (.resp 200 [("content-length", "7")] "OK")
        none none (.resp 201 [] "Created")).1.changedOf = some true
    ∧ ((main (sampleParams DState.absent true) (.resp 200 [("content-length", "7")] "OK")
        none none (.resp 201 [] "Created")).1.resultOf.map ResultDict.reason) = some none
    ∧ ((main (sampleParams DState.absent true) (.resp 200 [("content-length", "7")] "OK")
        none none (.resp 201 [] "Created")).1.resultOf.map ResultDict.status) = some none := by
  decide

/-- C4 amended: in check mode no delete, mkdir or PUT is ever issued,
whatever the desired state and the responses; when a change would be
needed the run still reports changed true without contacting the
remote service; the placeholder status 201 and reason Created are set
in the touch branch only (for absent and directory the status and
reason fields are left unset, as the counterexample shows). -/
theorem c4_check_mode_amended (p : ModuleParams)
    (hdrs : List (String × String)) (m : String) (de me : Option String)
    (putR : HttpAttempt) (n : Int) (s : String)
    (hcl : headersGet hdrs "content-length" = some s)
    (hn : parsePyInt s = some n)
    (hcm : p.checkMode = true) :
    (∀ (hd2 : HttpAttempt) (de2 me2 : Option String) (pr2 : HttpAttempt),
      ((main p hd2 de2 me2 pr2).2.all fun c => !isMutating c) = true)
    ∧ (p.state = DState.absent →
      (main p (.resp 200 hdrs m) de me putR).1
        = .exited true
            { path := p.path
              size := some n
              state := "absent"
              status := none
              url := resultUrl p
              reason := none })
    ∧ (p.state = DState.directory →
      (main p (.resp 404 hdrs m) de me putR).1
        = .exited true
            { path := p.path
              size := none
              state := "directory"
              status := none
              url := resultUrl p
              reason := none })
    ∧ (p.state = DState.touch →
      (main p (.resp 404 hdrs m) de me putR).1
        = .exited true
            { path := p.path
              size := some 0
              state := "file"
              status := some 201
              url := resultUrl p
              reason := some "Created" }) := by
  refine ⟨?_, ?_, ?_, ?_⟩
  · intro hd2 de2 me2 pr2
    cases hd2 with
    | sockError em => simp [main, isMutating]
    | otherError em => simp [main, isMutating]
    | resp status hs2 m2 =>
      by_cases h200 : status = 200
      · subst h200
        rcases hget : headersGet hs2 "content-length" with _ | s2
        · simp [main, hget, isMutating]
        · rcases hpi : parsePyInt s2 with _ | n2
          · simp [main, hget, hpi, isMutating]
          · cases hst : p.state <;>
              simp [main, stateDispatch, hget, hpi, hst, hcm, isMutating]
      · by_cases h404 : status = 404
        · subst h404
          cases hst : p.state <;>
            simp [main, stateDispatch, h200, hst, hcm, isMutating]
        · simp [main, h200, h404, isMutating]
  · intro hst
    simp [main, stateDispatch, hst, hcl, hn, hcm, initResult, DState.toStr]
  · intro hst
    simp [main, stateDispatch, hst, hcm, initResult, DState.toStr]
  · intro hst
    simp [main, stateDispatch, hst, hcm, initResult]

/-- Witness for the amended C4 at concrete inputs in check mode. -/
theorem c4_check_mode_amended_witness :
    headersGet [("content-length", "7")] "content-length" = some "7"
    ∧ parsePyInt "7" = some 7
    ∧ (sampleParams DState.touch true).checkMode = true
    ∧ ((∀ (hd2 : HttpAttempt) (de2 me2 : Option String) (pr2 : HttpAttempt),
        ((main (sampleParams DState.touch true) hd2 de2 me2 pr2).2.all
          fun c => !isMutating c) = true)
      ∧ ((sampleParams DState.touch true).state = DState.absent →
        (main (sampleParams DState.touch true)
            (.resp 200 [("content-length", "7")] "OK") none none
            (.resp 201 [] "Created")).1
          = .exited true
              { path := "a/b"
                size := some 7
                state := "absent"
                status := none
                url := resultUrl (sampleParams DState.touch true)
                reason := none })
      ∧ ((sampleParams DState.touch true).state = DState.directory →
        (main (sampleParams DState.touch true)
            (.resp 404 [("content-length", "7")] "OK") none none
            (.resp 201 [] "Created")).1
          = .exited true
              { path := "a/b"
                size := none
                state := "directory"
                status := none
                url := resultUrl (sampleParams DState.touch true)
                reason := none })
      ∧ ((sampleParams DState.touch true).state = DState.touch →
        (main (sampleParams DState.touch true)
            (.resp 404 [("content-length", "7")] "OK") none none
            (.resp 201 [] "Created")).1
          = .exited true
              { path := "a/b"
                size := some 0
                state := "file"
                status := some 201
                url := resultUrl (sampleParams DState.touch true)
                reason := some "Created" })) :=
  ⟨by decide, by decide, rfl,
    c4_check_mode_amended (sampleParams DState.touch true)
      [("content-length", "7")] "OK" none none (.resp 201 [] "Created") 7 "7"
      (by decide) (by decide) rfl⟩

/-- C5 is right about the intent but the code violates it: when the
delete or mkdir call raises, the except handler evaluates e[0] to build
its errno argument, which under Python 3 raises TypeError, so the
module dies with an unhandled crash instead of the structured failure
carrying the underlying message. -/
theorem c5_mutation_error_crash :
    main (sampleParams DState.absent false) (.resp 200 [("content-length", "5")] "OK")
        (some "No space left on device") none (.resp 201 [] "Created")
      = (.crashed py3SubscriptCrash, [RemoteCall.headReq, RemoteCall.deleteFileCall])
    ∧ main (sampleParams DState.directory false) (.resp 404 [] "Not Found")
        none (some "Permission denied") (.resp 201 [] "Created")
      = (.crashed py3SubscriptCrash, [RemoteCall.headReq, RemoteCall.makeDirectoryCall]) := by
  decide

/-- C6 is right about the intent but the code violates it: on a HEAD
200 response the size is set from the content-length header when it
parses, but a missing or non-numeric header makes int() raise an
uncaught TypeError or ValueError, an unhandled crash rather than a
structured failure. -/
theorem c6_content_length_crash :
    (main (sampleParams DState.file false) (.resp 200 [] "OK") none none
        (.resp 201 [] "Created")).1
      = .crashed "TypeError: int() argument is None"
    ∧ (main (sampleParams DState.file false) (.resp 200 [("content-length", "abc")] "OK")
        none none (.resp 201 [] "Created")).1
      = .crashed "ValueError: invalid literal for int(): abc"
    ∧ (main (sampleParams DState.file false) (.resp 200 [("content-length", "17")] "OK")
        none none (.resp 201 [] "Created")).1
      = .exited false
          { path := "a/b"
            size := some 17
            state := "file"
            status := some 200
            url := resultUrl (sampleParams DState.file false)
            reason := none } := by
  decide

end VsphereFile
